import Mathlib

/-!
Verification development for the aSentrX trade decision engine.

The Python sources are embedded shallowly:
* floats become `ℚ` (every comparison and arithmetic operation performed by the
  code is exact at the values involved),
* Python `None` becomes `Option`,
* code that can raise becomes `Except String`-valued, the string recording the
  exception (for an `AttributeError` we record the missing attribute name),
* the network collaborators (LLM agents, the exchange client, Twilio) are
  oracles passed in as parameters.
-/

namespace Asentrx

/-- ASCII lowering, the model of Python's `str.lower()` for the identifiers and
direction/topic strings that the engine compares (all ASCII). -/
def pyLower (s : String) : String :=
  ⟨s.data.map Char.toLower⟩

/-! ## app/config.py — class AppConfig

`config.py` defines the attributes below (trading-relevant ones; credentials,
model selection and log levels are external concerns never read by the embedded
code paths).  The trade decision manager accesses further attribute *names*
that `config.py` does not define; Python resolves every `AppConfig.X` access at
call time, so such a read raises `AttributeError`.  We model the class as a
record of the attributes that exist together with string-keyed lookup functions
that return `none` exactly on the names `config.py` does not bind. -/

structure AppConfig where
  PROD_EXECUTION : Bool
  SMS_NOTIFICATIONS_ENABLED : Bool
  TRADE_SYMBOL : String
  -- FED decision specific order amounts
  ORDER_AMOUNT_FED_BUY_HIGH_CONF : ℚ
  ORDER_AMOUNT_FED_SHORT_HIGH_CONF : ℚ
  ORDER_AMOUNT_FED_BUY_MED_CONF : ℚ
  ORDER_AMOUNT_FED_SHORT_MED_CONF : ℚ
  -- FED decision specific leverage settings
  LEVERAGE_FED_BUY_HIGH_CONF : ℤ
  LEVERAGE_FED_SHORT_HIGH_CONF : ℤ
  LEVERAGE_FED_BUY_MED_CONF : ℤ
  LEVERAGE_FED_SHORT_MED_CONF : ℤ
  -- FED decision specific confidence thresholds
  CONFIDENCE_THRESHOLD_FED_HIGH : ℚ
  CONFIDENCE_THRESHOLD_FED_MED : ℚ
  -- Truth Social generic order amounts
  TS_ORDER_AMOUNT_BUY_HIGH_CONF : ℚ
  TS_ORDER_AMOUNT_SHORT_HIGH_CONF : ℚ
  TS_ORDER_AMOUNT_BUY_MED_CONF : ℚ
  TS_ORDER_AMOUNT_SHORT_MED_CONF : ℚ
  -- Truth Social generic leverage settings
  TS_LEVERAGE_BUY_HIGH_CONF : ℤ
  TS_LEVERAGE_SHORT_HIGH_CONF : ℤ
  TS_LEVERAGE_BUY_MED_CONF : ℤ
  TS_LEVERAGE_SHORT_MED_CONF : ℤ
  -- Truth Social bitcoin specific order amounts
  TS_ORDER_AMOUNT_BITCOIN_BUY_HIGH_CONF : ℚ
  TS_ORDER_AMOUNT_BITCOIN_SHORT_HIGH_CONF : ℚ
  TS_ORDER_AMOUNT_BITCOIN_BUY_MED_CONF : ℚ
  TS_ORDER_AMOUNT_BITCOIN_SHORT_MED_CONF : ℚ
  -- Truth Social bitcoin specific leverage settings
  TS_LEVERAGE_BITCOIN_BUY_HIGH_CONF : ℤ
  TS_LEVERAGE_BITCOIN_SHORT_HIGH_CONF : ℤ
  TS_LEVERAGE_BITCOIN_BUY_MED_CONF : ℤ
  TS_LEVERAGE_BITCOIN_SHORT_MED_CONF : ℤ
  -- Truth Social generic confidence thresholds
  TS_CONFIDENCE_THRESHOLD_HIGH : ℚ
  TS_CONFIDENCE_THRESHOLD_MED : ℚ
  -- Truth Social bitcoin specific confidence thresholds
  TS_CONFIDENCE_THRESHOLD_BITCOIN_HIGH : ℚ
  TS_CONFIDENCE_THRESHOLD_BITCOIN_MED : ℚ
  -- Generic limit offsets
  LIMIT_OFFSET_BUY : ℚ
  LIMIT_OFFSET_SHORT : ℚ

/-- The default values assigned in `config.py` when the corresponding
environment variable is unset. -/
def defaultAppConfig : AppConfig where
  PROD_EXECUTION := false
  SMS_NOTIFICATIONS_ENABLED := false
  TRADE_SYMBOL := "tBTCF0:USTF0"
  ORDER_AMOUNT_FED_BUY_HIGH_CONF := 0.002
  ORDER_AMOUNT_FED_SHORT_HIGH_CONF := -0.002
  ORDER_AMOUNT_FED_BUY_MED_CONF := 0.001
  ORDER_AMOUNT_FED_SHORT_MED_CONF := -0.001
  LEVERAGE_FED_BUY_HIGH_CONF := 20
  LEVERAGE_FED_SHORT_HIGH_CONF := 20
  LEVERAGE_FED_BUY_MED_CONF := 10
  LEVERAGE_FED_SHORT_MED_CONF := 10
  CONFIDENCE_THRESHOLD_FED_HIGH := 0.96
  CONFIDENCE_THRESHOLD_FED_MED := 0.92
  TS_ORDER_AMOUNT_BUY_HIGH_CONF := 0.001
  TS_ORDER_AMOUNT_SHORT_HIGH_CONF := -0.001
  TS_ORDER_AMOUNT_BUY_MED_CONF := 0.0005
  TS_ORDER_AMOUNT_SHORT_MED_CONF := -0.0005
  TS_LEVERAGE_BUY_HIGH_CONF := 10
  TS_LEVERAGE_SHORT_HIGH_CONF := 10
  TS_LEVERAGE_BUY_MED_CONF := 5
  TS_LEVERAGE_SHORT_MED_CONF := 5
  TS_ORDER_AMOUNT_BITCOIN_BUY_HIGH_CONF := 0.0015
  TS_ORDER_AMOUNT_BITCOIN_SHORT_HIGH_CONF := -0.0015
  TS_ORDER_AMOUNT_BITCOIN_BUY_MED_CONF := 0.00075
  TS_ORDER_AMOUNT_BITCOIN_SHORT_MED_CONF := -0.00075
  TS_LEVERAGE_BITCOIN_BUY_HIGH_CONF := 15
  TS_LEVERAGE_BITCOIN_SHORT_HIGH_CONF := 15
  TS_LEVERAGE_BITCOIN_BUY_MED_CONF := 7
  TS_LEVERAGE_BITCOIN_SHORT_MED_CONF := 7
  TS_CONFIDENCE_THRESHOLD_HIGH := 0.95
  TS_CONFIDENCE_THRESHOLD_MED := 0.9
  TS_CONFIDENCE_THRESHOLD_BITCOIN_HIGH := 0.93
  TS_CONFIDENCE_THRESHOLD_BITCOIN_MED := 0.88
  LIMIT_OFFSET_BUY := 0.005
  LIMIT_OFFSET_SHORT := 0.005

/-- `getattr(AppConfig, name)` restricted to float-valued attributes: the
names bound by `config.py` (via `float(os.getenv(...))`) map to the record
field, every other name is unbound. -/
def AppConfig.floatAttr (c : AppConfig) (name : String) : Option ℚ :=
  if name = "ORDER_AMOUNT_FED_BUY_HIGH_CONF" then some c.ORDER_AMOUNT_FED_BUY_HIGH_CONF
  else if name = "ORDER_AMOUNT_FED_SHORT_HIGH_CONF" then some c.ORDER_AMOUNT_FED_SHORT_HIGH_CONF
  else if name = "ORDER_AMOUNT_FED_BUY_MED_CONF" then some c.ORDER_AMOUNT_FED_BUY_MED_CONF
  else if name = "ORDER_AMOUNT_FED_SHORT_MED_CONF" then some c.ORDER_AMOUNT_FED_SHORT_MED_CONF
  else if name = "CONFIDENCE_THRESHOLD_FED_HIGH" then some c.CONFIDENCE_THRESHOLD_FED_HIGH
  else if name = "CONFIDENCE_THRESHOLD_FED_MED" then some c.CONFIDENCE_THRESHOLD_FED_MED
  else if name = "TS_ORDER_AMOUNT_BUY_HIGH_CONF" then some c.TS_ORDER_AMOUNT_BUY_HIGH_CONF
  else if name = "TS_ORDER_AMOUNT_SHORT_HIGH_CONF" then some c.TS_ORDER_AMOUNT_SHORT_HIGH_CONF
  else if name = "TS_ORDER_AMOUNT_BUY_MED_CONF" then some c.TS_ORDER_AMOUNT_BUY_MED_CONF
  else if name = "TS_ORDER_AMOUNT_SHORT_MED_CONF" then some c.TS_ORDER_AMOUNT_SHORT_MED_CONF
  else if name = "TS_ORDER_AMOUNT_BITCOIN_BUY_HIGH_CONF" then some c.TS_ORDER_AMOUNT_BITCOIN_BUY_HIGH_CONF
  else if name = "TS_ORDER_AMOUNT_BITCOIN_SHORT_HIGH_CONF" then some c.TS_ORDER_AMOUNT_BITCOIN_SHORT_HIGH_CONF
  else if name = "TS_ORDER_AMOUNT_BITCOIN_BUY_MED_CONF" then some c.TS_ORDER_AMOUNT_BITCOIN_BUY_MED_CONF
  else if name = "TS_ORDER_AMOUNT_BITCOIN_SHORT_MED_CONF" then some c.TS_ORDER_AMOUNT_BITCOIN_SHORT_MED_CONF
  else if name = "TS_CONFIDENCE_THRESHOLD_HIGH" then some c.TS_CONFIDENCE_THRESHOLD_HIGH
  else if name = "TS_CONFIDENCE_THRESHOLD_MED" then some c.TS_CONFIDENCE_THRESHOLD_MED
  else if name = "TS_CONFIDENCE_THRESHOLD_BITCOIN_HIGH" then some c.TS_CONFIDENCE_THRESHOLD_BITCOIN_HIGH
  else if name = "TS_CONFIDENCE_THRESHOLD_BITCOIN_MED" then some c.TS_CONFIDENCE_THRESHOLD_BITCOIN_MED
  else if name = "LIMIT_OFFSET_BUY" then some c.LIMIT_OFFSET_BUY
  else if name = "LIMIT_OFFSET_SHORT" then some c.LIMIT_OFFSET_SHORT
  else none

/-- `getattr(AppConfig, name)` restricted to int-valued attributes. -/
def AppConfig.intAttr (c : AppConfig) (name : String) : Option ℤ :=
  if name = "LEVERAGE_FED_BUY_HIGH_CONF" then some c.LEVERAGE_FED_BUY_HIGH_CONF
  else if name = "LEVERAGE_FED_SHORT_HIGH_CONF" then some c.LEVERAGE_FED_SHORT_HIGH_CONF
  else if name = "LEVERAGE_FED_BUY_MED_CONF" then some c.LEVERAGE_FED_BUY_MED_CONF
  else if name = "LEVERAGE_FED_SHORT_MED_CONF" then some c.LEVERAGE_FED_SHORT_MED_CONF
  else if name = "TS_LEVERAGE_BUY_HIGH_CONF" then some c.TS_LEVERAGE_BUY_HIGH_CONF
  else if name = "TS_LEVERAGE_SHORT_HIGH_CONF" then some c.TS_LEVERAGE_SHORT_HIGH_CONF
  else if name = "TS_LEVERAGE_BUY_MED_CONF" then some c.TS_LEVERAGE_BUY_MED_CONF
  else if name = "TS_LEVERAGE_SHORT_MED_CONF" then some c.TS_LEVERAGE_SHORT_MED_CONF
  else if name = "TS_LEVERAGE_BITCOIN_BUY_HIGH_CONF" then some c.TS_LEVERAGE_BITCOIN_BUY_HIGH_CONF
  else if name = "TS_LEVERAGE_BITCOIN_SHORT_HIGH_CONF" then some c.TS_LEVERAGE_BITCOIN_SHORT_HIGH_CONF
  else if name = "TS_LEVERAGE_BITCOIN_BUY_MED_CONF" then some c.TS_LEVERAGE_BITCOIN_BUY_MED_CONF
  else if name = "TS_LEVERAGE_BITCOIN_SHORT_MED_CONF" then some c.TS_LEVERAGE_BITCOIN_SHORT_MED_CONF
  else none

/-- A float attribute read `AppConfig.name`; an unbound name raises
`AttributeError`, recorded as `Except.error name`. -/
def getFloatAttr (c : AppConfig) (name : String) : Except String ℚ :=
  match c.floatAttr name with
  | some q => .ok q
  | none => .error name

/-- An int attribute read `AppConfig.name`; an unbound name raises
`AttributeError`, recorded as `Except.error name`. -/
def getIntAttr (c : AppConfig) (name : String) : Except String ℤ :=
  match c.intAttr name with
  | some n => .ok n
  | none => .error name

/-! ## app/trading/trade_decision_manager.py — _determine_trade_params -/

/-- The order dict built by `_determine_trade_params`
(`{"amount", "limit_offset_percentage", "leverage", "description"}`). -/
structure TradeOrder where
  amount : ℚ
  limit_offset_percentage : ℚ
  leverage : ℤ
  description : String
deriving DecidableEq, Repr

/-- The ten per-topic local settings assembled at the top of
`_determine_trade_params` (lines 36-69 of the source). -/
structure BundleSettings where
  amount_buy_high : ℚ
  amount_short_high : ℚ
  amount_buy_med : ℚ
  amount_short_med : ℚ
  leverage_buy_high : ℤ
  leverage_short_high : ℤ
  leverage_buy_med : ℤ
  leverage_short_med : ℤ
  confidence_threshold_high_current : ℚ
  confidence_threshold_med_current : ℚ
deriving DecidableEq, Repr

/-- `TradeDecisionManager._determine_trade_params(topic, direction, confidence)`.

Embeds the source line by line: the generic defaults are read from `AppConfig`
first (lines 36-45), then overridden for the topics `"bitcoin"` and
`"fed_decision"` (lines 48-69), then the two-tier threshold logic runs
(lines 77-121).  Every `AppConfig` read goes through `getFloatAttr`/
`getIntAttr`, so a read of a name `config.py` does not bind yields
`Except.error` — the `AttributeError` the Python code would raise.  The source
ends with a guard `if current_amount is not None and ...`; on both branches
that reach it the three locals are set, so the embedding returns the order
directly there. -/
def determine_trade_params (cfg : AppConfig) (topic direction : String)
    (confidence : ℚ) : Except String (Option TradeOrder) := do
  let topic_lower := pyLower topic
  let direction_lower := pyLower direction
  -- Initialize current settings with generic defaults (lines 36-45)
  let amount_buy_high ← getFloatAttr cfg "ORDER_AMOUNT_BUY_HIGH_CONF"
  let amount_short_high ← getFloatAttr cfg "ORDER_AMOUNT_SHORT_HIGH_CONF"
  let amount_buy_med ← getFloatAttr cfg "ORDER_AMOUNT_BUY_MED_CONF"
  let amount_short_med ← getFloatAttr cfg "ORDER_AMOUNT_SHORT_MED_CONF"
  let leverage_buy_high ← getIntAttr cfg "LEVERAGE_BUY_HIGH_CONF"
  let leverage_short_high ← getIntAttr cfg "LEVERAGE_SHORT_HIGH_CONF"
  let leverage_buy_med ← getIntAttr cfg "LEVERAGE_BUY_MED_CONF"
  let leverage_short_med ← getIntAttr cfg "LEVERAGE_SHORT_MED_CONF"
  let confidence_threshold_high_current ← getFloatAttr cfg "CONFIDENCE_THRESHOLD_HIGH"
  let confidence_threshold_med_current ← getFloatAttr cfg "CONFIDENCE_THRESHOLD_MED"
  let generic : BundleSettings :=
    ⟨amount_buy_high, amount_short_high, amount_buy_med, amount_short_med,
     leverage_buy_high, leverage_short_high, leverage_buy_med, leverage_short_med,
     confidence_threshold_high_current, confidence_threshold_med_current⟩
  -- Apply topic-specific overrides (lines 48-69)
  let s : BundleSettings ←
    if topic_lower = "bitcoin" then do
      let a1 ← getFloatAttr cfg "ORDER_AMOUNT_BITCOIN_BUY_HIGH_CONF"
      let a2 ← getFloatAttr cfg "ORDER_AMOUNT_BITCOIN_SHORT_HIGH_CONF"
      let a3 ← getFloatAttr cfg "ORDER_AMOUNT_BITCOIN_BUY_MED_CONF"
      let a4 ← getFloatAttr cfg "ORDER_AMOUNT_BITCOIN_SHORT_MED_CONF"
      let l1 ← getIntAttr cfg "LEVERAGE_BITCOIN_BUY_HIGH_CONF"
      let l2 ← getIntAttr cfg "LEVERAGE_BITCOIN_SHORT_HIGH_CONF"
      let l3 ← getIntAttr cfg "LEVERAGE_BITCOIN_BUY_MED_CONF"
      let l4 ← getIntAttr cfg "LEVERAGE_BITCOIN_SHORT_MED_CONF"
      let t1 ← getFloatAttr cfg "CONFIDENCE_THRESHOLD_BITCOIN_HIGH"
      let t2 ← getFloatAttr cfg "CONFIDENCE_THRESHOLD_BITCOIN_MED"
      pure ⟨a1, a2, a3, a4, l1, l2, l3, l4, t1, t2⟩
    else if topic_lower = "fed_decision" then do
      let a1 ← getFloatAttr cfg "ORDER_AMOUNT_FED_BUY_HIGH_CONF"
      let a2 ← getFloatAttr cfg "ORDER_AMOUNT_FED_SHORT_HIGH_CONF"
      let a3 ← getFloatAttr cfg "ORDER_AMOUNT_FED_BUY_MED_CONF"
      let a4 ← getFloatAttr cfg "ORDER_AMOUNT_FED_SHORT_MED_CONF"
      let l1 ← getIntAttr cfg "LEVERAGE_FED_BUY_HIGH_CONF"
      let l2 ← getIntAttr cfg "LEVERAGE_FED_SHORT_HIGH_CONF"
      let l3 ← getIntAttr cfg "LEVERAGE_FED_BUY_MED_CONF"
      let l4 ← getIntAttr cfg "LEVERAGE_FED_SHORT_MED_CONF"
      let t1 ← getFloatAttr cfg "CONFIDENCE_THRESHOLD_FED_HIGH"
      let t2 ← getFloatAttr cfg "CONFIDENCE_THRESHOLD_FED_MED"
      pure ⟨a1, a2, a3, a4, l1, l2, l3, l4, t1, t2⟩
    else
      pure generic
  -- Two-tier threshold logic (lines 77-121)
  if direction_lower = "up" ∨ direction_lower = "positive" then do
    let limit_offset ← getFloatAttr cfg "LIMIT_OFFSET_BUY"
    if confidence ≥ s.confidence_threshold_high_current then
      pure (some ⟨s.amount_buy_high, limit_offset, s.leverage_buy_high,
                  "BUY/LONG (High-Confidence UP)"⟩)
    else if confidence ≥ s.confidence_threshold_med_current then
      pure (some ⟨s.amount_buy_med, limit_offset, s.leverage_buy_med,
                  "BUY/LONG (Medium-Confidence UP)"⟩)
    else
      pure none
  else if direction_lower = "down" ∨ direction_lower = "negative" then do
    let limit_offset ← getFloatAttr cfg "LIMIT_OFFSET_SHORT"
    if confidence ≥ s.confidence_threshold_high_current then
      pure (some ⟨s.amount_short_high, limit_offset, s.leverage_short_high,
                  "SHORT (High-Confidence DOWN)"⟩)
    else if confidence ≥ s.confidence_threshold_med_current then
      pure (some ⟨s.amount_short_med, limit_offset, s.leverage_short_med,
                  "SHORT (Medium-Confidence DOWN)"⟩)
    else
      pure none
  else
    pure none

/-! ## app/trading/trader.py — Trader.execute_order

The derivative-status response is a list of rows; a row is a heterogeneous
list.  A cell is modelled by whether Python's `float(cell)` raises:
`pynone` is `None` (the guard `is not None` skips it; `float(None)` would
raise `TypeError`), `num q` is any value `float` converts to `q` (numbers and
numeric strings), `nonNumeric` is any other value (`float` raises
`ValueError`/`TypeError`, which the source catches and treats as "try the
next price").  The actual network fetch and the submission call are the
external collaborator `BitfinexTrader`; the fetch's response is a parameter
and the submission is the returned value. -/

inductive PyCell where
  | pynone
  | num (q : ℚ)
  | nonNumeric
deriving DecidableEq, Repr

/-- The result of `float(cell)` under a `try/except (ValueError, TypeError)`:
`some q` when the conversion succeeds, `none` when it raises (or when the
source's `is not None` guard skips the value). -/
def pyFloat? : PyCell → Option ℚ
  | .num q => some q
  | _ => none

def DERIV_STATUS_SYMBOL_IDX : ℕ := 0
def DERIV_STATUS_LAST_PRICE_IDX : ℕ := 3
def DERIV_STATUS_MARK_PRICE_IDX : ℕ := 15

/-- The keyword arguments of the `bfx_trader.submit_order(...)` call issued at
the end of `execute_order` (the API receives `amount` and `price` as strings;
we keep the exact numeric values). -/
structure SubmittedOrder where
  symbol : String
  amount : ℚ
  price : ℚ
  lev : ℤ
  type : String
deriving DecidableEq, Repr

/-- `Trader.execute_order(symbol, amount, leverage, limit_offset_percentage)`.

`status_data_list` is the value returned by
`get_derivative_status(symbol)`: `none` models a falsy response (`None`),
otherwise the list of rows.  Returns the submitted order, or `none` when the
source aborts before submission. -/
def Trader.execute_order (symbol : String) (amount : ℚ) (leverage : ℤ)
    (limit_offset_percentage : ℚ)
    (status_data_list : Option (List (List PyCell))) : Option SubmittedOrder :=
  match status_data_list with
  | none => none        -- `if not status_data_list: ... return None`
  | some [] => none     -- empty list is falsy, and fails the list check too
  | some (status_data :: _) =>
    -- `if ... len(status_data) <= max(MARK_PRICE_IDX, LAST_PRICE_IDX): return None`
    if status_data.length ≤ max DERIV_STATUS_MARK_PRICE_IDX DERIV_STATUS_LAST_PRICE_IDX then
      none
    else
      let mark_price_val := status_data.getD DERIV_STATUS_MARK_PRICE_IDX .pynone
      let last_price_val := status_data.getD DERIV_STATUS_LAST_PRICE_IDX .pynone
      -- prefer MARK_PRICE; on None or conversion failure fall back to LAST_PRICE
      let current_price : Option ℚ :=
        match pyFloat? mark_price_val with
        | some q => some q
        | none => pyFloat? last_price_val
      match current_price with
      | none => none    -- both prices unusable: abort before submission
      | some p =>
        let limit_price : ℚ :=
          if amount > 0 then p * (1 + limit_offset_percentage)   -- Buy/Long
          else p * (1 - limit_offset_percentage)                 -- Sell/Short
        some ⟨symbol, amount, limit_price, leverage, "LIMIT"⟩

/-! ## app/models.py — analysis result models -/

/-- `models.FEDDecisionImpact` (the optional parsed-detail fields that are
only logged are omitted; `impact_on_bitcoin` is pydantic-validated to one of
`"positive"`, `"negative"`, `"neutral"`). -/
structure FEDDecisionImpact where
  impact_on_bitcoin : String
  confidence : ℚ
  reasoning : String
  actual_fed_decision_summary : String
  fed_chair_event : Option String := none
deriving DecidableEq, Repr

/-- `models.AnalysisOutput`: the social-media pipeline output shape declared
in `app/models.py`. -/
structure AnalysisOutput where
  topic_classification : Option String := none
  topic_confidence : Option ℚ := none
  topic_reasoning : Option String := none
  price_direction : Option String := none
  price_confidence : Option ℚ := none
  price_reasoning : Option String := none
deriving DecidableEq, Repr

/-- `social_media_agent.SocialMediaAnalysisOutput`: the class the social
analyzer actually instantiates.  It has the same fields as
`models.AnalysisOutput` but is a distinct Python class (defined in the agent
module, unrelated by inheritance), which matters for the `isinstance`
dispatch in the trade decision manager. -/
structure SocialMediaAnalysisOutput where
  topic_classification : Option String := none
  topic_confidence : Option ℚ := none
  topic_reasoning : Option String := none
  price_direction : Option String := none
  price_confidence : Option ℚ := none
  price_reasoning : Option String := none
deriving DecidableEq, Repr

/-- The union of analysis-result values flowing into
`_process_analysis_result` / `execute_trade_from_analysis`, one constructor
per Python class inspected by `isinstance`. -/
inductive AnyAnalysisResult where
  | fedImpact (d : FEDDecisionImpact)                  -- models.FEDDecisionImpact
  | fedFailed (error_message : String)                 -- models.FailedFEDAnalysis
  | fedIrrelevant (reason : String)                    -- models.IrrelevantFEDContent
  | analysisOutput (out : AnalysisOutput)              -- models.AnalysisOutput
  | socialAgentOutput (out : SocialMediaAnalysisOutput)
      -- social_media_agent.SocialMediaAnalysisOutput (not a models.AnalysisOutput)
  | socialFailed (error_message : String)
      -- Modelled from the spec: models.FailedSocialMediaAnalysis is imported by
      -- main.py but absent from src/app/models.py; the spec's Failed variant
      -- carries an error message.
  | socialIrrelevant (reason : String)
      -- Modelled from the spec: models.IrrelevantSocialMediaContent, the
      -- spec's Irrelevant variant, carrying a reason.
deriving DecidableEq, Repr

/-! ## app/ai/agents/fed_decision_agent.py — FEDDecisionAnalyzer.analyze_content -/

/-- What `await self.agent.run(content)` produced: one of the three declared
output models, an unexpected model type, or (`Except.error`) an exception
raised anywhere inside the `try` block. -/
inductive FedAgentOutput where
  | impact (d : FEDDecisionImpact)
  | irrelevant (reason : String)
  | failed (error_message : String)
  | unexpected (type_name : String)
deriving DecidableEq, Repr

/-- The analyzer's return type: one of the three `app.models` classes. -/
inductive FedAnalysisResult where
  | impact (d : FEDDecisionImpact)        -- FEDDecisionImpact
  | irrelevant (reason : String)          -- IrrelevantFEDContent
  | failed (error_message : String)       -- FailedFEDAnalysis
deriving DecidableEq, Repr

/-- `FEDDecisionAnalyzer.analyze_content`, as a function of the agent-run
outcome.  Every branch — including the `except Exception` handler — returns a
value; no exception escapes. -/
def FEDDecisionAnalyzer.analyze_content (run : Except String FedAgentOutput) :
    FedAnalysisResult :=
  match run with
  | .ok (.impact d) => .impact d
  | .ok (.irrelevant r) => .irrelevant r
  | .ok (.failed m) => .failed ("FED decision agent failed: " ++ m)
  | .ok (.unexpected t) =>
      .failed ("FED decision agent returned an unexpected Pydantic model type: " ++ t)
  | .error e => .failed ("Unhandled exception during FED analysis: " ++ e)

/-! ## app/ai/agents/social_media_agent.py — SocialMediaPostAnalyzer.analyze_content -/

structure TopicClassification where
  classification : String
  confidence : ℚ
  reasoning : String
deriving DecidableEq, Repr

structure PriceDirectionPrediction where
  direction : String
  confidence : ℚ
  reasoning : String
deriving DecidableEq, Repr

/-- Outcome of `await topic_classification_agent.run(content)` (the tests
patch `run` to return the output object directly): a classification, the
agent's `Failed()` marker, or an unexpected type. -/
inductive TopicAgentRun where
  | classified (t : TopicClassification)
  | failed
  | unexpected
deriving DecidableEq, Repr

/-- Outcome of the per-topic direction agent's `run`. -/
inductive DirectionAgentRun where
  | predicted (p : PriceDirectionPrediction)
  | failed
deriving DecidableEq, Repr

/-- `SocialMediaPostAnalyzer.analyze_content`, as a function of the two agent
runs (`direction_run` is consulted with the classification chosen for topics
`"market"`, `"bitcoin"`, `"tariffs"`; for `"others"` or unknown topics no
direction agent runs).  `Except.error` on either oracle models an exception
raised inside the `try` block; the `except Exception` handler then sets
`topic_reasoning = "Pipeline error: ..."` on the (already partially mutated)
`pipeline_output` and returns it — so every path returns a
`SocialMediaAnalysisOutput` and no exception escapes. -/
def SocialMediaPostAnalyzer.analyze_content
    (topic_run : Except String TopicAgentRun)
    (direction_run : String → Except String DirectionAgentRun) :
    SocialMediaAnalysisOutput :=
  match topic_run with
  | .error e => { topic_reasoning := some ("Pipeline error: " ++ e) }
  | .ok .failed => { topic_reasoning := some "Topic classification agent failed." }
  | .ok .unexpected =>
      { topic_reasoning := some "Topic classification agent returned unexpected type." }
  | .ok (.classified topic_data) =>
    let out : SocialMediaAnalysisOutput :=
      { topic_classification := some topic_data.classification
        topic_confidence := some topic_data.confidence
        topic_reasoning := some topic_data.reasoning }
    if topic_data.classification = "market" ∨ topic_data.classification = "bitcoin"
        ∨ topic_data.classification = "tariffs" then
      match direction_run topic_data.classification with
      | .error e => { out with topic_reasoning := some ("Pipeline error: " ++ e) }
      | .ok .failed => { out with price_reasoning := some "direction agent failed." }
      | .ok (.predicted p) =>
        { out with price_direction := some p.direction
                   price_confidence := some p.confidence
                   price_reasoning := some p.reasoning }
    else out

/-! ## app/trading/trade_decision_manager.py — execute_trade_from_analysis -/

/-- The keyword arguments of a `self.trader.execute_order(...)` invocation. -/
structure TraderCall where
  symbol : String
  amount : ℚ
  leverage : ℤ
  limit_offset_percentage : ℚ
deriving DecidableEq, Repr

/-- An SMS sent by the manager: the order description and whether the final
body reports `Status: Succeeded` (`true`) or `Status: Failed/Aborted`
(`false`).  The full body is
`"aSentrX: {description} for {symbol}. Amt: ..., Lev: ... . Status: ..."`. -/
structure SmsReport where
  description : String
  succeeded : Bool
deriving DecidableEq, Repr

/-- The observable outcome of one `execute_trade_from_analysis` call:
`raised` is the uncaught exception escaping the method (if any),
`traderCalls` the `Trader.execute_order` invocations it made, `smsSent` the
SMS notifications it issued. -/
structure ExecOutcome where
  raised : Option String
  traderCalls : List TraderCall
  smsSent : List SmsReport
deriving DecidableEq, Repr

/-- The `isinstance` dispatch at the top of `execute_trade_from_analysis`:
`models.AnalysisOutput` yields the social fields, `models.FEDDecisionImpact`
yields `("fed_decision", impact_on_bitcoin, confidence)`; any other type —
including the agent-module `SocialMediaAnalysisOutput`, which is not a
`models.AnalysisOutput` — hits the `else` branch ("Unsupported analysis
result type") and the method returns without trading. -/
def extract_signal : AnyAnalysisResult → Option (Option String × Option String × Option ℚ)
  | .analysisOutput out => some (out.topic_classification, out.price_direction, out.price_confidence)
  | .fedImpact d => some (some "fed_decision", some d.impact_on_bitcoin, some d.confidence)
  | _ => none

/-- `TradeDecisionManager.execute_trade_from_analysis(analysis_result, ...)`.

`trader_run` is the behaviour of the external `self.trader.execute_order`
call if it is made: `.ok b` means it returned a value of truthiness `b`,
`.error` means it raised (which the surrounding `try/except` catches).
`self.PROD_EXECUTION` and `self.TRADE_SYMBOL` are read from `AppConfig` at
construction; both names exist in `config.py`. -/
def TradeDecisionManager.execute_trade_from_analysis (cfg : AppConfig)
    (analysis_result : AnyAnalysisResult) (trader_run : Except String Bool) :
    ExecOutcome :=
  match extract_signal analysis_result with
  | none => ⟨none, [], []⟩   -- unsupported result type: logged, return
  | some (topic?, direction?, confidence?) =>
    -- `if not topic or not direction or confidence is None: ... return`
    -- (`not topic` is true for None and for the empty string)
    match topic?, direction?, confidence? with
    | some topic, some direction, some confidence =>
      if topic = "" ∨ direction = "" then ⟨none, [], []⟩
      else
        match determine_trade_params cfg topic direction confidence with
        | .error e => ⟨some e, [], []⟩   -- exception propagates out of the method
        | .ok none => ⟨none, [], []⟩     -- "No trade parameters determined ... No action."
        | .ok (some order) =>
          let call : TraderCall :=
            ⟨cfg.TRADE_SYMBOL, order.amount, order.leverage, order.limit_offset_percentage⟩
          let res : Bool × List TraderCall :=
            if cfg.PROD_EXECUTION then
              match trader_run with
              | .ok b => (b, [call])          -- order_executed_successfully = bool(order_result)
              | .error _ => (false, [call])   -- EXCEPTION during order execution: caught, logged
            else
              (true, [])   -- "PROD_EXECUTION is FALSE. Simulating order execution"
          let sms : List SmsReport :=
            if cfg.SMS_NOTIFICATIONS_ENABLED then [⟨order.description, res.1⟩] else []
          ⟨none, res.2, sms⟩
    | _, _, _ => ⟨none, [], []⟩   -- incomplete analysis data: no trading action

/-! ## app/models.py / app/main.py — request payloads and validation -/

/-- `models.WebMonitorPayload` after pydantic validation: `uuid` defaults to a
generated UUID, `url` and `username` are optional (`username` is never read
downstream and omitted), `content_id` defaults to `""`, `content` and `ip`
are required. -/
structure WebMonitorPayload where
  uuid : String
  type : String
  url : Option String
  content_id : Option String
  content : String
  ip : String
deriving DecidableEq, Repr

/-- The fields present in an incoming web-monitor JSON body (a missing field
is `none`). -/
structure WebMonitorRaw where
  uuid : Option String := none
  type : Option String := none
  url : Option String := none
  content_id : Option String := none
  content : Option String := none
  ip : Option String := none
deriving DecidableEq, Repr

/-- Pydantic validation of `WebMonitorPayload`: `content` and `ip` are
required (a missing one fails validation, which FastAPI reports as a 422
client error), `type` must be one of the declared literals when present and
defaults to `"web-monitor"`, `uuid` defaults to the generated
`generated_uuid`, `url` defaults to `None`, `content_id` defaults to `""`. -/
def validate_web_monitor_payload (generated_uuid : String) (r : WebMonitorRaw) :
    Except ℕ WebMonitorPayload :=
  match r.content, r.ip with
  | some c, some i =>
    let t := r.type.getD "web-monitor"
    if t = "web-monitor" ∨ t = "truthsocial" ∨ t = "twitter" then
      .ok ⟨r.uuid.getD generated_uuid, t, r.url, some (r.content_id.getD ""), c, i⟩
    else
      .error 422
  | _, _ => .error 422

/-- Modelled from the spec: `models.SocialMediaPayload` is imported by
`app/main.py` from `app.models` but absent from `src/app/models.py`.  Per the
spec ("a dedup key must be derivable — `url` for web-monitor, `content_id`
for social; request is rejected if missing"), `content_id` is a required
string field; `content` and `ip` are required as in the sibling payload. -/
structure SocialMediaPayload where
  uuid : String
  content_id : String
  content : String
  ip : String
deriving DecidableEq, Repr

/-! ## app/main.py — application state and endpoints -/

/-- The `app.state` pieces read by the endpoints: the process-wide
`processed_content_ids` set (its elements are the inserted dedup keys; a
web-monitor request may insert Python `None`, hence `Option String`), and
whether each lifespan-initialized collaborator is non-`None`. -/
structure EngineState where
  processed_content_ids : List (Option String)
  fed_analyzer_up : Bool
  social_analyzer_up : Bool
  trade_manager_up : Bool
deriving DecidableEq, Repr

/-- The HTTP outcome of a handler: a 200 JSON body `{status, message}`, a
raised `HTTPException(status_code, detail)`, or an exception that escapes the
handler (FastAPI converts it to a 500 response). -/
inductive HttpResponse where
  | ok (status message : String)
  | httpExc (status_code : ℕ) (detail : String)
  | serverError (detail : String)
deriving DecidableEq, Repr

/-- `str(x)` for the optional URL in the 409 detail message. -/
def pyStrOfOpt : Option String → String
  | none => "None"
  | some s => s

/-- `_process_analysis_result(request, analysis_result, uuid)`: classify the
result by `isinstance`, then — for actionable results — hand off to the trade
decision manager (a synchronous call; an exception it raises escapes the
handler). -/
def process_analysis_result (cfg : AppConfig) (st : EngineState)
    (analysis_result : AnyAnalysisResult) (trader_run : Except String Bool) :
    HttpResponse :=
  match analysis_result with
  | .fedFailed m => .ok "success_analysis_failed" ("Analysis failed: " ++ m)
  | .socialFailed m => .ok "success_analysis_failed" ("Analysis failed: " ++ m)
  | .fedIrrelevant _ => .ok "success_no_action" "Content analyzed as irrelevant."
  | .socialIrrelevant _ => .ok "success_no_action" "Content analyzed as irrelevant."
  | other =>
    if !st.trade_manager_up then
      .ok "success_trade_manager_unavailable"
         "Actionable event found, but Trade Manager is unavailable."
    else
      match (TradeDecisionManager.execute_trade_from_analysis cfg other trader_run).raised with
      | some e => .serverError e
      | none => .ok "success" "Notification processed and trade logic triggered."

/-- Injection of the FED analyzer's return value into the union consumed by
`_process_analysis_result`. -/
def FedAnalysisResult.toAny : FedAnalysisResult → AnyAnalysisResult
  | .impact d => .fedImpact d
  | .irrelevant r => .fedIrrelevant r
  | .failed m => .fedFailed m

/-- `POST /notify/web-monitor` (`handle_web_monitor_notification`) on a
payload that passed validation.  `analysis` is the FED analyzer's result for
`payload.content` (the analyzer itself never raises, see
`FEDDecisionAnalyzer.analyze_content`).  Steps, in source order: dedup check
on `payload.url` (409 on a hit), insertion of `payload.url` into the
process-wide set, analyzer availability check (503), analysis, then
`_process_analysis_result`. -/
def handle_web_monitor_notification (cfg : AppConfig) (st : EngineState)
    (payload : WebMonitorPayload) (analysis : FedAnalysisResult)
    (trader_run : Except String Bool) : HttpResponse × EngineState :=
  if payload.url ∈ st.processed_content_ids then
    (.httpExc 409 ("URL '" ++ pyStrOfOpt payload.url ++ "' already processed."), st)
  else
    let st' : EngineState :=
      { st with processed_content_ids := payload.url :: st.processed_content_ids }
    if !st.fed_analyzer_up then
      (.httpExc 503 "FED Decision Analyzer is not available.", st')
    else
      (process_analysis_result cfg st' analysis.toAny trader_run, st')

/-- `POST /notify/truth-social` (`handle_truth_social_notification`) on a
payload that passed validation.  `analysis` is the social analyzer's
result — always a `social_media_agent.SocialMediaAnalysisOutput`.  Steps, in
source order: dedup check on `payload.content_id` (409 on a hit), insertion
into the same process-wide set the web-monitor endpoint uses, analyzer
availability check (503), analysis, then `_process_analysis_result`. -/
def handle_truth_social_notification (cfg : AppConfig) (st : EngineState)
    (payload : SocialMediaPayload) (analysis : SocialMediaAnalysisOutput)
    (trader_run : Except String Bool) : HttpResponse × EngineState :=
  if some payload.content_id ∈ st.processed_content_ids then
    (.httpExc 409 ("Content ID '" ++ payload.content_id ++ "' already processed."), st)
  else
    let st' : EngineState :=
      { st with processed_content_ids := some payload.content_id :: st.processed_content_ids }
    if !st.social_analyzer_up then
      (.httpExc 503 "Social Media Analyzer is not available.", st')
    else
      (process_analysis_result cfg st' (.socialAgentOutput analysis) trader_run, st')

/-! ## Helper lemmas -/

/-- Helper: every invocation of the trade-parameter resolver fails on its very
first configuration read — `config.py` does not bind
`ORDER_AMOUNT_BUY_HIGH_CONF` — so the call raises `AttributeError` for every
topic, direction and confidence. -/
theorem determine_trade_params_attr_error (cfg : AppConfig)
    (topic direction : String) (confidence : ℚ) :
    determine_trade_params cfg topic direction confidence
      = .error "ORDER_AMOUNT_BUY_HIGH_CONF" := rfl

/-- Helper: on a well-formed status row whose mark-price cell converts to `m`,
`execute_order` submits a LIMIT order at `m * (1 ± offset)` by the sign of the
amount. -/
theorem execute_order_mark_num (symbol : String) (amount : ℚ) (leverage : ℤ)
    (off : ℚ) (row : List PyCell) (rest : List (List PyCell))
    (hlen : 15 < row.length) (m : ℚ) (hm : row.getD 15 .pynone = .num m) :
    Trader.execute_order symbol amount leverage off (some (row :: rest))
      = some ⟨symbol, amount,
              if amount > 0 then m * (1 + off) else m * (1 - off),
              leverage, "LIMIT"⟩ := by
  have hnotle : ¬ row.length ≤ max DERIV_STATUS_MARK_PRICE_IDX DERIV_STATUS_LAST_PRICE_IDX := by
    simpa [DERIV_STATUS_MARK_PRICE_IDX, DERIV_STATUS_LAST_PRICE_IDX] using Nat.not_le.mpr hlen
  have hm2 : row[(15 : ℕ)] = PyCell.num m := by
    simpa [List.getD, List.getElem?_eq_getElem hlen] using hm
  simp [Trader.execute_order, hnotle, hlen, DERIV_STATUS_MARK_PRICE_IDX,
    DERIV_STATUS_LAST_PRICE_IDX, List.getD, hm2, pyFloat?]

/-- Helper: fallback to the last price when the mark-price cell is unusable. -/
theorem execute_order_last_num (symbol : String) (amount : ℚ) (leverage : ℤ)
    (off : ℚ) (row : List PyCell) (rest : List (List PyCell))
    (hlen : 15 < row.length) (hmark : pyFloat? (row.getD 15 .pynone) = none)
    (l : ℚ) (hl : row.getD 3 .pynone = .num l) :
    Trader.execute_order symbol amount leverage off (some (row :: rest))
      = some ⟨symbol, amount,
              if amount > 0 then l * (1 + off) else l * (1 - off),
              leverage, "LIMIT"⟩ := by
  have h3 : 3 < row.length := by omega
  have hnotle : ¬ row.length ≤ max DERIV_STATUS_MARK_PRICE_IDX DERIV_STATUS_LAST_PRICE_IDX := by
    simpa [DERIV_STATUS_MARK_PRICE_IDX, DERIV_STATUS_LAST_PRICE_IDX] using Nat.not_le.mpr hlen
  have hmark2 : pyFloat? (row[(15 : ℕ)]) = none := by
    simpa [List.getD, List.getElem?_eq_getElem hlen] using hmark
  have hl2 : row[(3 : ℕ)] = PyCell.num l := by
    simpa [List.getD, List.getElem?_eq_getElem h3] using hl
  cases hc : row[(15 : ℕ)] with
  | num q => simp [pyFloat?, hc] at hmark2
  | pynone =>
    simp [Trader.execute_order, hnotle, hlen, h3, DERIV_STATUS_MARK_PRICE_IDX,
      DERIV_STATUS_LAST_PRICE_IDX, List.getD, hc, hl2, pyFloat?]
  | nonNumeric =>
    simp [Trader.execute_order, hnotle, hlen, h3, DERIV_STATUS_MARK_PRICE_IDX,
      DERIV_STATUS_LAST_PRICE_IDX, List.getD, hc, hl2, pyFloat?]

/-- Helper: when neither price cell is usable the order is aborted. -/
theorem execute_order_no_price (symbol : String) (amount : ℚ) (leverage : ℤ)
    (off : ℚ) (row : List PyCell) (rest : List (List PyCell))
    (hmark : pyFloat? (row.getD 15 .pynone) = none)
    (hlast : pyFloat? (row.getD 3 .pynone) = none) :
    Trader.execute_order symbol amount leverage off (some (row :: rest)) = none := by
  by_cases hlen : row.length ≤ max DERIV_STATUS_MARK_PRICE_IDX DERIV_STATUS_LAST_PRICE_IDX
  · simp [Trader.execute_order, hlen]
  · have h15 : 15 < row.length := by
      simp [DERIV_STATUS_MARK_PRICE_IDX, DERIV_STATUS_LAST_PRICE_IDX] at hlen
      omega
    have h3 : 3 < row.length := by omega
    have hmark2 : pyFloat? (row[(15 : ℕ)]) = none := by
      simpa [List.getD, List.getElem?_eq_getElem h15] using hmark
    have hlast2 : pyFloat? (row[(3 : ℕ)]) = none := by
      simpa [List.getD, List.getElem?_eq_getElem h3] using hlast
    cases hc : row[(15 : ℕ)] with
    | num q => simp [pyFloat?, hc] at hmark2
    | pynone =>
      cases hd : row[(3 : ℕ)] with
      | num q => simp [pyFloat?, hd] at hlast2
      | pynone =>
        simp [Trader.execute_order, hlen, h15, h3, DERIV_STATUS_MARK_PRICE_IDX,
          DERIV_STATUS_LAST_PRICE_IDX, List.getD, hc, hd, pyFloat?]
      | nonNumeric =>
        simp [Trader.execute_order, hlen, h15, h3, DERIV_STATUS_MARK_PRICE_IDX,
          DERIV_STATUS_LAST_PRICE_IDX, List.getD, hc, hd, pyFloat?]
    | nonNumeric =>
      cases hd : row[(3 : ℕ)] with
      | num q => simp [pyFloat?, hd] at hlast2
      | pynone =>
        simp [Trader.execute_order, hlen, h15, h3, DERIV_STATUS_MARK_PRICE_IDX,
          DERIV_STATUS_LAST_PRICE_IDX, List.getD, hc, hd, pyFloat?]
      | nonNumeric =>
        simp [Trader.execute_order, hlen, h15, h3, DERIV_STATUS_MARK_PRICE_IDX,
          DERIV_STATUS_LAST_PRICE_IDX, List.getD, hc, hd, pyFloat?]

/-! ## Claim theorems -/

/-- Claim C1 counterexample: a web-monitor request whose body has
`type="web-monitor"` but no `url` field is NOT rejected with a 400: it passes
pydantic validation with `url = None`, the dedup set is modified (Python
`None` is inserted as the key), and the analyzer's result is consumed — here
a failed analysis, answered with a 200-shaped body. -/
theorem c1_counterexample :
    validate_web_monitor_payload "gen-uuid"
        { type := some "web-monitor", content := some "FED text", ip := some "1.2.3.4" }
      = .ok ⟨"gen-uuid", "web-monitor", none, some "", "FED text", "1.2.3.4"⟩
    ∧ (handle_web_monitor_notification defaultAppConfig ⟨[], true, true, true⟩
          ⟨"gen-uuid", "web-monitor", none, some "", "FED text", "1.2.3.4"⟩
          (.failed "boom") (.ok true)).1
      = .ok "success_analysis_failed" "Analysis failed: boom"
    ∧ (handle_web_monitor_notification defaultAppConfig ⟨[], true, true, true⟩
          ⟨"gen-uuid", "web-monitor", none, some "", "FED text", "1.2.3.4"⟩
          (.failed "boom") (.ok true)).2.processed_content_ids
      = [none] :=
  ⟨rfl, rfl, rfl⟩

/-- Claim C1 (amended): a web-monitor payload without a `url` is admitted, not
rejected: the handler inserts `None` into the dedup set before consulting the
analyzer, returns the response computed from the analyzer's result, and a
second url-less request is rejected with 409. -/
theorem c1_missing_url_admitted (st : EngineState) (p : WebMonitorPayload)
    (a1 a2 : FedAnalysisResult) (tr1 tr2 : Except String Bool)
    (hurl : p.url = none) (hfresh : none ∉ st.processed_content_ids)
    (hup : st.fed_analyzer_up = true) :
    (handle_web_monitor_notification defaultAppConfig st p a1 tr1).1
      = process_analysis_result defaultAppConfig
          { st with processed_content_ids := none :: st.processed_content_ids }
          a1.toAny tr1
    ∧ (handle_web_monitor_notification defaultAppConfig st p a1 tr1).2.processed_content_ids
      = none :: st.processed_content_ids
    ∧ (handle_web_monitor_notification defaultAppConfig
          (handle_web_monitor_notification defaultAppConfig st p a1 tr1).2 p a2 tr2).1
      = .httpExc 409 "URL 'None' already processed." := by
  have h1 : handle_web_monitor_notification defaultAppConfig st p a1 tr1
      = (process_analysis_result defaultAppConfig
           { st with processed_content_ids := none :: st.processed_content_ids }
           a1.toAny tr1,
         { st with processed_content_ids := none :: st.processed_content_ids }) := by
    simp [handle_web_monitor_notification, hurl, hfresh, hup]
  refine ⟨by rw [h1], by rw [h1], ?_⟩
  rw [h1]
  simp [handle_web_monitor_notification, hurl, pyStrOfOpt]

theorem c1_missing_url_admitted_witness :
    (none ∉ ([] : List (Option String)))
    ∧ (handle_web_monitor_notification defaultAppConfig ⟨[], true, true, true⟩
          ⟨"u", "web-monitor", none, some "", "c", "ip"⟩ (.failed "x") (.ok true)).2.processed_content_ids
      = none :: [] :=
  ⟨by simp,
   (c1_missing_url_admitted ⟨[], true, true, true⟩
      ⟨"u", "web-monitor", none, some "", "c", "ip"⟩ (.failed "x") (.failed "y")
      (.ok true) (.ok true) rfl (by simp) rfl).2.1⟩

/-- Claim C2 (code bug): the trade-parameter resolver never reaches its
two-tier threshold logic.  For every topic, direction and confidence the call
fails on its first configuration read with
`AttributeError: ORDER_AMOUNT_BUY_HIGH_CONF` — `config.py` binds only the
`TS_`-prefixed generic/bitcoin settings, while `_determine_trade_params`
reads the unprefixed names — so no confidence bundle is ever selected. -/
theorem c2_resolver_raises_attribute_error (cfg : AppConfig)
    (topic direction : String) (confidence : ℚ) :
    determine_trade_params cfg topic direction confidence
      = .error "ORDER_AMOUNT_BUY_HIGH_CONF" :=
  determine_trade_params_attr_error cfg topic direction confidence

/-- Claim C4 (code bug): the resolver produces no trade order to which the
sign/limit-offset invariant could apply; at the repo's own test input
(FED decision, negative impact, confidence 0.98) it raises `AttributeError`
instead of returning the FED short bundle, and in general no `.ok (some o)`
result is possible. -/
theorem c4_no_order_is_produced :
    determine_trade_params defaultAppConfig "fed_decision" "negative" 0.98
      = .error "ORDER_AMOUNT_BUY_HIGH_CONF"
    ∧ ∀ (cfg : AppConfig) (topic direction : String) (confidence : ℚ)
        (o : TradeOrder),
        determine_trade_params cfg topic direction confidence ≠ .ok (some o) := by
  refine ⟨rfl, ?_⟩
  intro cfg topic direction confidence o h
  rw [determine_trade_params_attr_error] at h
  exact Except.noConfusion h

/-- Claim C7 (code bug): with `PROD_EXECUTION = False` (and SMS enabled), an
actionable FED analysis never reaches the simulation branch: the resolver
raises `AttributeError` first, so the executor is indeed not invoked, but no
success is recorded and no SMS is sent — the exception escapes the manager
instead of the outcome being reported as if the order succeeded. -/
theorem c7_simulation_reporting_broken :
    TradeDecisionManager.execute_trade_from_analysis
        { defaultAppConfig with
            PROD_EXECUTION := false, SMS_NOTIFICATIONS_ENABLED := true }
        (.fedImpact ⟨"positive", 0.97, "dovish surprise", "rates held", none⟩)
        (.ok true)
      = ⟨some "ORDER_AMOUNT_BUY_HIGH_CONF", [], []⟩ := rfl

/-- Claim C3 (code bug): duplicate-key sequencing.  The key is inserted before
downstream processing and the second duplicate request is rejected with 409
exactly as claimed; but the first request — actionable analysis, trade
manager available — ends in an uncaught `AttributeError` (HTTP 500), not the
claimed 200, because the resolver's configuration reads fail.  Two requests
with distinct keys (non-actionable outcomes shown) are both answered with
200-shaped bodies. -/
theorem c3_duplicate_key_sequencing :
    (handle_web_monitor_notification defaultAppConfig ⟨[], true, true, true⟩
        ⟨"u1", "web-monitor", some "http://a", some "", "text", "ip"⟩
        (.impact ⟨"positive", 0.97, "r", "s", none⟩) (.ok true)).1
      = .serverError "ORDER_AMOUNT_BUY_HIGH_CONF"
    ∧ (handle_web_monitor_notification defaultAppConfig ⟨[], true, true, true⟩
        ⟨"u1", "web-monitor", some "http://a", some "", "text", "ip"⟩
        (.impact ⟨"positive", 0.97, "r", "s", none⟩) (.ok true)).2.processed_content_ids
      = [some "http://a"]
    ∧ (handle_web_monitor_notification defaultAppConfig
        (handle_web_monitor_notification defaultAppConfig ⟨[], true, true, true⟩
          ⟨"u1", "web-monitor", some "http://a", some "", "text", "ip"⟩
          (.impact ⟨"positive", 0.97, "r", "s", none⟩) (.ok true)).2
        ⟨"u2", "web-monitor", some "http://a", some "", "text", "ip"⟩
        (.impact ⟨"positive", 0.97, "r", "s", none⟩) (.ok true)).1
      = .httpExc 409 "URL 'http://a' already processed."
    ∧ (handle_web_monitor_notification defaultAppConfig ⟨[], true, true, true⟩
        ⟨"u1", "web-monitor", some "http://a", some "", "text", "ip"⟩
        (.failed "f") (.ok true)).1
      = .ok "success_analysis_failed" "Analysis failed: f"
    ∧ (handle_web_monitor_notification defaultAppConfig
        (handle_web_monitor_notification defaultAppConfig ⟨[], true, true, true⟩
          ⟨"u1", "web-monitor", some "http://a", some "", "text", "ip"⟩
          (.failed "f") (.ok true)).2
        ⟨"u2", "web-monitor", some "http://b", some "", "text2", "ip"⟩
        (.irrelevant "r") (.ok true)).1
      = .ok "success_no_action" "Content analyzed as irrelevant." :=
  ⟨rfl, rfl, rfl, rfl, rfl⟩

/-- Claim C5 counterexample: a notification that passes payload validation and
the dedup check can still be answered with a non-2xx response that is neither
a malformed-payload error nor a dedup conflict: when the FED analyzer failed
to initialize, the handler raises `HTTPException(503)`. -/
theorem c5_counterexample :
    validate_web_monitor_payload "u1"
        { type := some "web-monitor", url := some "http://a",
          content := some "text", ip := some "ip" }
      = .ok ⟨"u1", "web-monitor", some "http://a", some "", "text", "ip"⟩
    ∧ (handle_web_monitor_notification defaultAppConfig ⟨[], false, true, true⟩
          ⟨"u1", "web-monitor", some "http://a", some "", "text", "ip"⟩
          (.failed "unused") (.ok true)).1
      = .httpExc 503 "FED Decision Analyzer is not available." :=
  ⟨rfl, rfl⟩

/-- Claim C5 (amended): for a fresh key and an available analyzer the
web-monitor endpoint answers 200-success-shaped for Failed, Irrelevant and
manager-unavailable outcomes; an actionable result with an available manager
ends in an uncaught `AttributeError` (HTTP 500); with an unavailable analyzer
the answer is 503; and on the truth-social side an available manager treats
the social analyzer's output as an unsupported type, so the endpoint answers
200 `"success"` — no order-execution failure can ever surface as an HTTP
error because the trade path dies before reaching the executor. -/
theorem c5_response_classification (cfg : AppConfig) (st : EngineState)
    (p : WebMonitorPayload) (tr : Except String Bool)
    (hfresh : p.url ∉ st.processed_content_ids) :
    (st.fed_analyzer_up = false →
      (handle_web_monitor_notification cfg st p (.failed "m") tr).1
        = .httpExc 503 "FED Decision Analyzer is not available.")
    ∧ (st.fed_analyzer_up = true →
        (∀ m, (handle_web_monitor_notification cfg st p (.failed m) tr).1
            = .ok "success_analysis_failed" ("Analysis failed: " ++ m))
        ∧ (∀ r, (handle_web_monitor_notification cfg st p (.irrelevant r) tr).1
            = .ok "success_no_action" "Content analyzed as irrelevant.")
        ∧ (∀ d : FEDDecisionImpact, st.trade_manager_up = false →
            (handle_web_monitor_notification cfg st p (.impact d) tr).1
              = .ok "success_trade_manager_unavailable"
                  "Actionable event found, but Trade Manager is unavailable.")
        ∧ (∀ d : FEDDecisionImpact, st.trade_manager_up = true →
            d.impact_on_bitcoin ≠ "" →
            (handle_web_monitor_notification cfg st p (.impact d) tr).1
              = .serverError "ORDER_AMOUNT_BUY_HIGH_CONF"))
    ∧ (∀ (st2 : EngineState) (q : SocialMediaPayload)
          (out : SocialMediaAnalysisOutput) (tr2 : Except String Bool),
        some q.content_id ∉ st2.processed_content_ids →
        st2.social_analyzer_up = true → st2.trade_manager_up = true →
        (handle_truth_social_notification cfg st2 q out tr2).1
          = .ok "success" "Notification processed and trade logic triggered.") := by
  refine ⟨?_, ?_, ?_⟩
  · intro hdown
    simp [handle_web_monitor_notification, hfresh, hdown]
  · intro hup
    refine ⟨?_, ?_, ?_, ?_⟩
    · intro m
      simp [handle_web_monitor_notification, hfresh, hup, process_analysis_result,
        FedAnalysisResult.toAny]
    · intro r
      simp [handle_web_monitor_notification, hfresh, hup, process_analysis_result,
        FedAnalysisResult.toAny]
    · intro d hmgr
      simp [handle_web_monitor_notification, hfresh, hup, process_analysis_result,
        FedAnalysisResult.toAny, hmgr]
    · intro d hmgr hdir
      simp [handle_web_monitor_notification, hfresh, hup, process_analysis_result,
        FedAnalysisResult.toAny, hmgr,
        TradeDecisionManager.execute_trade_from_analysis, extract_signal, hdir,
        determine_trade_params_attr_error]
  · intro st2 q out tr2 hfresh2 hup2 hmgr2
    simp [handle_truth_social_notification, hfresh2, hup2, hmgr2,
      process_analysis_result, TradeDecisionManager.execute_trade_from_analysis,
      extract_signal]

theorem c5_response_classification_witness :
    ((⟨"u1", "web-monitor", some "k", some "", "c", "i"⟩ : WebMonitorPayload).url
        ∉ (⟨[], true, true, true⟩ : EngineState).processed_content_ids)
    ∧ (handle_web_monitor_notification defaultAppConfig ⟨[], true, true, true⟩
          ⟨"u1", "web-monitor", some "k", some "", "c", "i"⟩
          (.impact ⟨"positive", 0.97, "r", "s", none⟩) (.ok true)).1
      = .serverError "ORDER_AMOUNT_BUY_HIGH_CONF" :=
  ⟨by simp,
   ((c5_response_classification defaultAppConfig ⟨[], true, true, true⟩
       ⟨"u1", "web-monitor", some "k", some "", "c", "i"⟩ (.ok true)
       (by simp)).2.1 rfl).2.2.2
     ⟨"positive", 0.97, "r", "s", none⟩ rfl (by simp)⟩

/-- Claim C8 counterexample: an unexpected fault in the social pipeline is NOT
converted into a Failed-shaped outcome.  The analyzer catches the exception
and returns a `SocialMediaAnalysisOutput` whose only set field is
`topic_reasoning = "Pipeline error: ..."`; `_process_analysis_result` does not
classify this value as failed (it is no `Failed*Analysis` instance) and routes
it down the actionable path, answering `"success"` rather than
`"success_analysis_failed"`. -/
theorem c8_counterexample :
    SocialMediaPostAnalyzer.analyze_content (.error "boom") (fun _ => .ok .failed)
      = { topic_reasoning := some "Pipeline error: boom" }
    ∧ process_analysis_result defaultAppConfig ⟨[], true, true, true⟩
        (.socialAgentOutput
          (SocialMediaPostAnalyzer.analyze_content (.error "boom") (fun _ => .ok .failed)))
        (.ok true)
      = .ok "success" "Notification processed and trade logic triggered." :=
  ⟨rfl, rfl⟩

/-- Claim C8 (amended): both analyzers return a value on every path — no
exception escapes `analyze_content`.  The FED analyzer converts an unexpected
fault into a Failed-shaped `FailedFEDAnalysis`; the social analyzer converts
it into a `SocialMediaAnalysisOutput` with only `topic_reasoning` set, which
the request flow treats as a non-actionable success (`"success"`), not as a
Failed-shaped outcome. -/
theorem c8_faults_are_caught (e : String)
    (d : String → Except String DirectionAgentRun)
    (ids : List (Option String)) (f s : Bool) :
    FEDDecisionAnalyzer.analyze_content (.error e)
      = .failed ("Unhandled exception during FED analysis: " ++ e)
    ∧ SocialMediaPostAnalyzer.analyze_content (.error e) d
      = { topic_reasoning := some ("Pipeline error: " ++ e) }
    ∧ process_analysis_result defaultAppConfig ⟨ids, f, s, true⟩
        (.socialAgentOutput (SocialMediaPostAnalyzer.analyze_content (.error e) d))
        (.ok true)
      = .ok "success" "Notification processed and trade logic triggered." :=
  ⟨rfl, rfl, rfl⟩

/-- Claim C9: both endpoints share the single process-wide dedup set without
per-channel namespacing: once a web-monitor notification with `url = k` has
been admitted, a truth-social notification with `content_id = k` is rejected
with 409, and symmetrically. -/
theorem c9_shared_dedup_set (cfg : AppConfig) (k : String) (st : EngineState)
    (pw : WebMonitorPayload) (ps : SocialMediaPayload)
    (a : FedAnalysisResult) (out : SocialMediaAnalysisOutput)
    (tr1 tr2 : Except String Bool)
    (hw : pw.url = some k) (hs : ps.content_id = k)
    (hfresh : some k ∉ st.processed_content_ids) :
    (handle_truth_social_notification cfg
        (handle_web_monitor_notification cfg st pw a tr1).2 ps out tr2).1
      = .httpExc 409 ("Content ID '" ++ k ++ "' already processed.")
    ∧ (handle_web_monitor_notification cfg
        (handle_truth_social_notification cfg st ps out tr2).2 pw a tr1).1
      = .httpExc 409 ("URL '" ++ k ++ "' already processed.") := by
  constructor
  · have h2 : (handle_web_monitor_notification cfg st pw a tr1).2.processed_content_ids
        = some k :: st.processed_content_ids := by
      rw [handle_web_monitor_notification, hw]
      rw [if_neg hfresh]
      cases hb : st.fed_analyzer_up <;> simp
    rw [handle_truth_social_notification, hs, h2]
    simp
  · have h2 : (handle_truth_social_notification cfg st ps out tr2).2.processed_content_ids
        = some k :: st.processed_content_ids := by
      rw [handle_truth_social_notification, hs]
      rw [if_neg hfresh]
      cases hb : st.social_analyzer_up <;> simp
    rw [handle_web_monitor_notification, hw, h2]
    simp [pyStrOfOpt]

theorem c9_shared_dedup_set_witness :
    ((⟨"u", "web-monitor", some "k1", some "", "c", "i"⟩ : WebMonitorPayload).url = some "k1")
    ∧ (handle_truth_social_notification defaultAppConfig
        (handle_web_monitor_notification defaultAppConfig ⟨[], true, true, true⟩
          ⟨"u", "web-monitor", some "k1", some "", "c", "i"⟩ (.failed "x") (.ok true)).2
        ⟨"u2", "k1", "c2", "i2"⟩ {} (.ok true)).1
      = .httpExc 409 ("Content ID '" ++ "k1" ++ "' already processed.") :=
  ⟨rfl,
   (c9_shared_dedup_set defaultAppConfig "k1" ⟨[], true, true, true⟩
      ⟨"u", "web-monitor", some "k1", some "", "c", "i"⟩ ⟨"u2", "k1", "c2", "i2"⟩
      (.failed "x") {} (.ok true) (.ok true) rfl rfl (by simp)).1⟩

/-- Claim C6: `execute_order` prefers the numeric mark price, falls back to a
numeric last price, aborts (returns `None`, submitting nothing) when neither
cell is usable or when the status response is falsy/empty, and otherwise
submits a LIMIT order with the requested leverage at
`market_price * (1 + offset)` for a positive amount and
`market_price * (1 - offset)` otherwise. -/
theorem c6_execute_order_price_selection (symbol : String) (amount : ℚ)
    (leverage : ℤ) (off : ℚ) (row : List PyCell) (rest : List (List PyCell))
    (hlen : 15 < row.length) :
    (∀ m : ℚ, row.getD 15 .pynone = .num m →
        Trader.execute_order symbol amount leverage off (some (row :: rest))
          = some ⟨symbol, amount,
                  if amount > 0 then m * (1 + off) else m * (1 - off),
                  leverage, "LIMIT"⟩)
    ∧ (∀ l : ℚ, pyFloat? (row.getD 15 .pynone) = none →
          row.getD 3 .pynone = .num l →
        Trader.execute_order symbol amount leverage off (some (row :: rest))
          = some ⟨symbol, amount,
                  if amount > 0 then l * (1 + off) else l * (1 - off),
                  leverage, "LIMIT"⟩)
    ∧ (pyFloat? (row.getD 15 .pynone) = none →
        pyFloat? (row.getD 3 .pynone) = none →
        Trader.execute_order symbol amount leverage off (some (row :: rest)) = none)
    ∧ Trader.execute_order symbol amount leverage off none = none
    ∧ Trader.execute_order symbol amount leverage off (some []) = none :=
  ⟨fun m hm => execute_order_mark_num symbol amount leverage off row rest hlen m hm,
   fun l h1 h2 => execute_order_last_num symbol amount leverage off row rest hlen h1 l h2,
   fun h1 h2 => execute_order_no_price symbol amount leverage off row rest h1 h2,
   rfl, rfl⟩

theorem c6_execute_order_price_selection_witness :
    15 < ([.pynone, .pynone, .pynone, .num 101, .pynone, .pynone, .pynone, .pynone,
           .pynone, .pynone, .pynone, .pynone, .pynone, .pynone, .pynone,
           .num 30000] : List PyCell).length
    ∧ Trader.execute_order "tBTCF0:USTF0" 5 10 0.005
        (some [[.pynone, .pynone, .pynone, .num 101, .pynone, .pynone, .pynone, .pynone,
                .pynone, .pynone, .pynone, .pynone, .pynone, .pynone, .pynone,
                .num 30000]])
      = some ⟨"tBTCF0:USTF0", 5,
              if (5 : ℚ) > 0 then (30000 : ℚ) * (1 + 0.005) else (30000 : ℚ) * (1 - 0.005),
              10, "LIMIT"⟩ :=
  ⟨by norm_num,
   (c6_execute_order_price_selection "tBTCF0:USTF0" 5 10 0.005 _ [] (by norm_num)).1
     30000 rfl⟩

/-- Claim C10: in `execute_order` an amount of exactly 0 takes the sell/short
branch — the limit price is `market_price * (1 - offset)` — while only
strictly positive amounts receive `market_price * (1 + offset)`. -/
theorem c10_zero_amount_takes_short_branch (symbol : String) (leverage : ℤ)
    (off m : ℚ) (row : List PyCell) (rest : List (List PyCell))
    (hlen : 15 < row.length) (hm : row.getD 15 .pynone = .num m) :
    Trader.execute_order symbol 0 leverage off (some (row :: rest))
      = some ⟨symbol, 0, m * (1 - off), leverage, "LIMIT"⟩
    ∧ ∀ a : ℚ, 0 < a →
        Trader.execute_order symbol a leverage off (some (row :: rest))
          = some ⟨symbol, a, m * (1 + off), leverage, "LIMIT"⟩ := by
  constructor
  · have h := execute_order_mark_num symbol 0 leverage off row rest hlen m hm
    simpa using h
  · intro a ha
    have h := execute_order_mark_num symbol a leverage off row rest hlen m hm
    simpa [ha] using h

theorem c10_zero_amount_takes_short_branch_witness :
    15 < ([.pynone, .pynone, .pynone, .pynone, .pynone, .pynone, .pynone, .pynone,
           .pynone, .pynone, .pynone, .pynone, .pynone, .pynone, .pynone,
           .num 40000] : List PyCell).length
    ∧ Trader.execute_order "tBTCF0:USTF0" 0 10 0.005
        (some [[.pynone, .pynone, .pynone, .pynone, .pynone, .pynone, .pynone, .pynone,
                .pynone, .pynone, .pynone, .pynone, .pynone, .pynone, .pynone,
                .num 40000]])
      = some ⟨"tBTCF0:USTF0", 0, (40000 : ℚ) * (1 - 0.005), 10, "LIMIT"⟩ :=
  ⟨by norm_num,
   (c10_zero_amount_takes_short_branch "tBTCF0:USTF0" 10 0.005 40000
      [.pynone, .pynone, .pynone, .pynone, .pynone, .pynone, .pynone, .pynone,
       .pynone, .pynone, .pynone, .pynone, .pynone, .pynone, .pynone,
       .num 40000] []
      (by norm_num) rfl).1⟩

end Asentrx
